import Mathlib

/-!
Verification of the weather prediction core of the NASA Space App Challenge
backend (`nova-mind-nasa-space-app-challenge-app`).

The development shallowly embeds the JavaScript services:
* `src/services/weatherDataService.js` — `calculatePrediction`,
  `processWeatherData`, `calculateConfidence`, `calculateReliability`;
* `src/services/nasaApiService.js` — `fetchHistoricalDataForPrediction`
  (its result-processing tail), `makeRequest`, `handleApiError`;
* `src/controllers/weatherController.js` — the historical/prediction
  date-cutoff routing;
* `src/services/validationService.js` — the custom date normalizer of the
  request validation schema;
* `src/config/config.js` — the `weather` configuration block.

JavaScript objects are embedded as association lists `List (String × _)`
(`Object.keys` order), numbers as `ℚ` (with `Number(x.toFixed(2))` modelled as
exact rational rounding to 2 decimal places, half up), and non-numeric JSON
values (which fail the `!isNaN(value)` guard) as a separate constructor.
-/

/-- A value sitting in an hourly parameter series of an upstream response:
either a JSON number, or a non-numeric value (which JavaScript's
`isNaN(value)` reports as NaN, so the services' validity filters drop it). -/
inductive JsVal where
  | num (q : ℚ)
  | nonNum
  deriving DecidableEq

/-- The fill sentinel `config.weather.fillValue` from `config.js`. -/
def fillValue : ℚ := -999

/-- JavaScript property read `obj[key]` on an object embedded as an
association list: the unique (first) entry with the given key, if any. -/
def getProp {α : Type} (k : String) : List (String × α) → Option α
  | [] => none
  | kv :: rest => if kv.1 = k then some kv.2 else getProp k rest

/-- `Number(x.toFixed(2))` modelled as exact rational rounding to two decimal
places (round half up). -/
def round2 (q : ℚ) : ℚ := ((⌊q * 100 + 1/2⌋ : ℤ) : ℚ) / 100

/-- `hour.toString().padStart(2, '0')` for `hour < 24`: always exactly the two
decimal digits of the hour. -/
def twoDigit (h : Nat) : String := String.mk [Char.ofNat (48 + h / 10), Char.ofNat (48 + h % 10)]

/-- `key.slice(-2)`: the last two characters of a string (the whole string if
it is shorter than two characters, as in JavaScript). -/
def lastTwo (s : String) : String := String.mk (s.data.drop (s.data.length - 2))

/-- The global dash-removing `date.replace` of `formatHourKey`. -/
def stripDashes (s : String) : String := String.mk (s.data.filter (fun c => c ≠ '-'))

/-- `WeatherDataService.formatHourKey`: the target hour key
`YYYYMMDDHH` built from the dash-stripped date and the zero-padded hour. -/
def formatHourKey (date : String) (hour : Nat) : String :=
  stripDashes date ++ twoDigit hour

/-- `WeatherDataService.getHistoricalHourKey`: the first key of the series
whose last two characters equal the zero-padded target hour. -/
def findHourKey (series : List (String × JsVal)) (hour : Nat) : Option String :=
  (series.map Prod.fst).find? (fun key => lastTwo key = twoDigit hour)

/-- The parts of a NASA POWER response (or of the synthetic prediction object,
which `calculatePrediction` builds in the same shape) that the weather data
service reads: `geometry.coordinates`, `properties.parameter`, and the
`parameters` units table (name → units string). -/
structure NasaData where
  coordinates : List ℚ
  parameter : List (String × List (String × JsVal))
  parametersInfo : List (String × String)
  deriving DecidableEq

/-- One element of the array `fetchHistoricalDataForPrediction` hands to
`calculatePrediction`: a year together with that year's dataset (`data` is
`null` on the failed-fetch shape the aggregator's filters test for). -/
structure YearItem where
  year : Int
  data : Option NasaData
  deriving DecidableEq

/-- The value a single year contributes at a target hour, before validity
filtering: locate the parameter series, positionally match the hour key,
and read the entry (`calculatePrediction`, inner loop). -/
def yearHourValue (item : YearItem) (param : String) (hour : Nat) : Option JsVal :=
  match item.data with
  | none => none
  | some d =>
    match getProp param d.parameter with
    | none => none
    | some series =>
      match findHourKey series hour with
      | none => none
      | some key => getProp key series

/-- The `hourValues` array of `calculatePrediction` for one parameter and
hour: every year's matched value that is numeric and not the fill sentinel. -/
def collectHourValues (arr : List YearItem) (param : String) (hour : Nat) : List ℚ :=
  arr.filterMap (fun item =>
    match yearHourValue item param hour with
    | some (JsVal.num q) => if q = fillValue then none else some q
    | _ => none)

/-- The predicted value for one parameter and hour: the 2-decimal rounded
arithmetic mean of the collected values, or the fill sentinel if none were
collected (`calculatePrediction`, lines 161–167). -/
def predictedHourValue (arr : List YearItem) (param : String) (hour : Nat) : ℚ :=
  let vs := collectHourValues arr param hour
  if vs.isEmpty then fillValue else round2 (vs.sum / (vs.length : ℚ))

/-- The `hourlyAverages` object for one parameter: for each hour 0–23, the
target hour key mapped to the predicted value (wrapped back into the numeric
upstream value shape). -/
def hourlyAverages (arr : List YearItem) (targetDate : String) (param : String) :
    List (String × JsVal) :=
  (List.range 24).map (fun h => (formatHourKey targetDate h, JsVal.num (predictedHourValue arr param h)))

/-- `historicalDataArray.find(item => item.data)`, used to seed the prediction
object's coordinates and parameter info. -/
def firstValidData (arr : List YearItem) : Option NasaData :=
  match arr.find? (fun it => it.data.isSome) with
  | some it => it.data
  | none => none

/-- The metadata record `calculatePrediction` returns. The `dateRange` string
(built from `Math.min`/`Math.max` over the valid years) is not modelled: no
claim mentions it and its empty-array case produces JavaScript infinities. -/
structure PredictionMetadata where
  yearsUsed : Nat
  totalDataPoints : Nat
  missingYears : List Int
  deriving DecidableEq

/-- `WeatherDataService.calculatePrediction`: the synthetic prediction dataset
(shaped like an upstream response) together with its metadata. -/
def calculatePrediction (arr : List YearItem) (targetDate : String) (params : List String) :
    NasaData × PredictionMetadata :=
  let coords := match firstValidData arr with
    | some d => d.coordinates
    | none => [0, 0, 0]
  let pinfo := match firstValidData arr with
    | some d => d.parametersInfo
    | none => []
  let predParams := params.map (fun p => (p, hourlyAverages arr targetDate p))
  let validYears := (arr.filter (fun it => it.data.isSome)).map YearItem.year
  let missingYears := (arr.filter (fun it => it.data.isNone)).map YearItem.year
  (⟨coords, predParams, pinfo⟩,
   ⟨validYears.length, validYears.length * 24 * params.length, missingYears⟩)

/-- The `validValues` filter used by `processWeatherData` on one hourly
series: the numeric values that differ from the fill sentinel, in series
order (`value !== config.weather.fillValue && !isNaN(value)`). -/
def validValues (series : List (String × JsVal)) : List ℚ :=
  series.filterMap (fun kv =>
    match kv.2 with
    | JsVal.num q => if q = fillValue then none else some q
    | JsVal.nonNum => none)

/-- `Math.min(...validValues)` over a non-empty list (the empty case is
unreachable behind the `validValues.length > 0` guard). -/
def listMin : List ℚ → ℚ
  | [] => 0
  | x :: xs => xs.foldl min x

/-- `Math.max(...validValues)` over a non-empty list. -/
def listMax : List ℚ → ℚ
  | [] => 0
  | x :: xs => xs.foldl max x

/-- The population variance computed inside `calculateStandardDeviation`
(mean of squared deviations; zero for at most one sample). The service stores
`Math.sqrt` of this quantity rounded to two decimals; the irrational square
root is not representable in `ℚ`, so aggregates below carry the variance. -/
def populationVariance (values : List ℚ) : ℚ :=
  if values.length ≤ 1 then 0
  else
    let mean := values.sum / (values.length : ℚ)
    ((values.map (fun v => (v - mean) ^ 2)).sum) / (values.length : ℚ)

/-- The per-parameter confidence labels of `calculateConfidence`. -/
inductive Confidence where
  | high
  | medium
  | low
  | very_low
  deriving DecidableEq

/-- `WeatherDataService.calculateConfidence`: thresholds on the ratio
`availableDataPoints / totalPossibleDataPoints`. For a zero denominator,
JavaScript produces `Infinity` (every `≥` holds) when the numerator is
positive, and `NaN` (no `≥` holds) when it is zero. -/
def calculateConfidence (available total : Nat) : Confidence :=
  if total = 0 then
    if available = 0 then Confidence.very_low else Confidence.high
  else
    let frac : ℚ := (available : ℚ) / (total : ℚ)
    if frac ≥ 9/10 then Confidence.high
    else if frac ≥ 7/10 then Confidence.medium
    else if frac ≥ 1/2 then Confidence.low
    else Confidence.very_low

/-- The whole-prediction reliability labels of `calculateReliability`. -/
inductive Reliability where
  | high
  | medium
  | low
  | very_low
  deriving DecidableEq

/-- `WeatherDataService.calculateReliability`. -/
def calculateReliability (yearsUsed totalDataPoints : Nat) : Reliability :=
  if yearsUsed ≥ 15 ∧ totalDataPoints > 0 then Reliability.high
  else if yearsUsed ≥ 10 then Reliability.medium
  else if yearsUsed ≥ 5 then Reliability.low
  else Reliability.very_low

/-- Numeric rank of a reliability label, for stating monotonicity. -/
def reliabilityRank : Reliability → Nat
  | Reliability.very_low => 0
  | Reliability.low => 1
  | Reliability.medium => 2
  | Reliability.high => 3

/-- The `dataType` argument of `processWeatherData`. -/
inductive DataType where
  | historical
  | prediction
  deriving DecidableEq

/-- One entry of `dailyAggregates` (see the modelling note on
`populationVariance` for the standard-deviation field). -/
structure DailyAggregate where
  min : ℚ
  max : ℚ
  mean : ℚ
  units : String
  confidence : Option Confidence
  variance : Option ℚ
  deriving DecidableEq

/-- The daily aggregate `processWeatherData` computes for one parameter:
`none` when the series has no valid values (the parameter is then omitted
from `dailyAggregates` altogether), otherwise min/max/mean rounded to two
decimals plus, for predictions with metadata, the confidence label computed
from the dataset-level `totalDataPoints` denominator. -/
def processParam (dataType : DataType) (md : Option PredictionMetadata)
    (pinfo : List (String × String)) (name : String)
    (series : List (String × JsVal)) : Option DailyAggregate :=
  match validValues series with
  | [] => none
  | v :: vs =>
    some
      { min := round2 (listMin (v :: vs))
        max := round2 (listMax (v :: vs))
        mean := round2 ((v :: vs).sum / ((v :: vs).length : ℚ))
        units := (getProp name pinfo).getD "unknown"
        confidence :=
          match dataType, md with
          | DataType.prediction, some m =>
            some (calculateConfidence (v :: vs).length m.totalDataPoints)
          | _, _ => none
        variance :=
          match dataType, md with
          | DataType.prediction, some _ => some (populationVariance (v :: vs))
          | _, _ => none }

/-- The `location` object extracted from `geometry.coordinates`
(`coordinates[1]`, `coordinates[0]`, and `coordinates[2] || null` — so a
zero elevation collapses to `null`, as in JavaScript). -/
structure Location where
  latitude : Option ℚ
  longitude : Option ℚ
  elevation : Option ℚ
  deriving DecidableEq

/-- The prediction-specific response block `predictionMetadata`. -/
structure PredictionResponseMetadata where
  dataPoints : Nat
  missingDataYears : List Int
  reliability : Reliability
  deriving DecidableEq

/-- The processed response of `processWeatherData` (the response-envelope
`metadata` block of source strings and the `dateRange` echo are not modelled;
no claim mentions them). -/
structure WeatherResult where
  location : Location
  date : String
  dataType : DataType
  hourlyData : List (String × List (String × JsVal))
  dailyAggregates : List (String × DailyAggregate)
  historicalYearsUsed : Option Nat
  predictionMetadata : Option PredictionResponseMetadata
  deriving DecidableEq

/-- `WeatherDataService.processWeatherData`. -/
def processWeatherData (resp : NasaData) (requestDate : String)
    (dataType : DataType) (md : Option PredictionMetadata) : WeatherResult :=
  { location :=
      { latitude := resp.coordinates.get? 1
        longitude := resp.coordinates.get? 0
        elevation :=
          match resp.coordinates.get? 2 with
          | some q => if q = 0 then none else some q
          | none => none }
    date := requestDate
    dataType := dataType
    hourlyData := resp.parameter
    dailyAggregates :=
      resp.parameter.filterMap (fun p =>
        (processParam dataType md resp.parametersInfo p.1 p.2).map (fun a => (p.1, a)))
    historicalYearsUsed :=
      match dataType, md with
      | DataType.prediction, some m => some m.yearsUsed
      | _, _ => none
    predictionMetadata :=
      match dataType, md with
      | DataType.prediction, some m =>
        some ⟨m.totalDataPoints, m.missingYears,
              calculateReliability m.yearsUsed m.totalDataPoints⟩
      | _, _ => none }

/-- The settled outcome of one year's fetch promise inside
`fetchHistoricalDataForPrediction` (`{year, data, error}` with exactly one of
`data`/`error` populated). -/
inductive FetchOutcome where
  | ok (data : NasaData)
  | err (message : String)
  deriving DecidableEq

/-- One settled year request. -/
structure YearFetch where
  year : Int
  outcome : FetchOutcome
  deriving DecidableEq

/-- The `errors` array: `"Year ${year}: ${reason}"` per failed year, in
request order. -/
def fetchErrors (results : List YearFetch) : List String :=
  results.filterMap (fun r =>
    match r.outcome with
    | FetchOutcome.err m => some ("Year " ++ toString r.year ++ ": " ++ m)
    | FetchOutcome.ok _ => none)

/-- The `historicalData` array: the successful years only, each carrying its
(non-null) dataset. Failed years are dropped here, not passed through. -/
def fetchSuccesses (results : List YearFetch) : List YearItem :=
  results.filterMap (fun r =>
    match r.outcome with
    | FetchOutcome.ok d => some ⟨r.year, some d⟩
    | FetchOutcome.err _ => none)

/-- `array.join(sep)` as in JavaScript. -/
def joinSep (sep : String) : List String → String
  | [] => ""
  | [x] => x
  | x :: y :: xs => x ++ sep ++ joinSep sep (y :: xs)

/-- The aggregate error message thrown when every year failed. -/
def aggregateErrorMessage (results : List YearFetch) : String :=
  "No historical data available for prediction. Errors: " ++ joinSep ", " (fetchErrors results)

/-- The result-processing tail of
`NasaPowerApiService.fetchHistoricalDataForPrediction` (lines 102–123): split
the settled promises into successes and formatted errors, throw the aggregate
error when no year succeeded, and otherwise return the successes. -/
def processFetchResults (results : List YearFetch) : Except String (List YearItem) :=
  let historicalData := fetchSuccesses results
  if historicalData.isEmpty then Except.error (aggregateErrorMessage results)
  else Except.ok historicalData

/-- The fields of a JavaScript/axios error object that
`NasaPowerApiService.handleApiError` inspects: the transport error code and,
when present, the HTTP status of the upstream response. -/
structure JsError where
  code : Option String
  responseStatus : Option Nat
  message : String
  deriving DecidableEq

/-- How one `axios.get` attempt inside `makeRequest` settles: the promise
resolves with some HTTP status, or it rejects with an error. -/
inductive AttemptOutcome where
  | resolved (status : Nat)
  | thrown (e : JsError)
  deriving DecidableEq

instance {ε α : Type} [DecidableEq ε] [DecidableEq α] : DecidableEq (Except ε α) := fun a b =>
  match a, b with
  | Except.ok x, Except.ok y =>
    if h : x = y then isTrue (congrArg Except.ok h)
    else isFalse (fun hh => h (Except.ok.inj hh))
  | Except.error x, Except.error y =>
    if h : x = y then isTrue (congrArg Except.error h)
    else isFalse (fun hh => h (Except.error.inj hh))
  | Except.ok _, Except.error _ => isFalse (fun hh => Except.noConfusion hh)
  | Except.error _, Except.ok _ => isFalse (fun hh => Except.noConfusion hh)

/-- Observable trace of `makeRequest`: its result (the successful status, or
the thrown `lastError` — `none` models a fall-through with no recorded
error), the sleep durations awaited between attempts, and how many upstream
attempts were issued. -/
structure RequestTrace where
  result : Except (Option JsError) Nat
  delays : List Nat
  attemptsMade : Nat
  deriving DecidableEq

/-- The retry loop body of `NasaPowerApiService.makeRequest`, iterating over
the remaining attempt numbers. A resolved 200 returns immediately; a resolved
non-200 falls through without recording an error; a rejection records the
error and, when attempts remain, sleeps `retryDelay * attempt` first. -/
def makeRequestGo (attempts : Nat → AttemptOutcome) (retryDelay : Nat) :
    List Nat → Option JsError → List Nat → Nat → RequestTrace
  | [], lastError, delays, made => ⟨Except.error lastError, delays, made⟩
  | i :: rest, lastError, delays, made =>
    match attempts i with
    | AttemptOutcome.resolved status =>
      if status = 200 then ⟨Except.ok status, delays, made + 1⟩
      else makeRequestGo attempts retryDelay rest lastError delays (made + 1)
    | AttemptOutcome.thrown e =>
      makeRequestGo attempts retryDelay rest (some e)
        (if rest.isEmpty then delays else delays ++ [retryDelay * i]) (made + 1)

/-- `NasaPowerApiService.makeRequest`: run attempts `1..retryAttempts` with
the given per-attempt outcomes. -/
def makeRequest (attempts : Nat → AttemptOutcome) (retryAttempts retryDelay : Nat) :
    RequestTrace :=
  makeRequestGo attempts retryDelay (List.range' 1 retryAttempts) none [] 0

/-- The normalized error produced by `NasaPowerApiService.handleApiError`. -/
structure NormalizedError where
  message : String
  code : String
  statusCode : Nat
  upstreamStatus : Option Nat
  deriving DecidableEq

/-- `NasaPowerApiService.handleApiError`: timeout codes first, then errors
carrying an upstream HTTP response, then connection failures, then the
generic fallback. -/
def handleApiError (e : JsError) : NormalizedError :=
  if e.code = some "ECONNABORTED" ∨ e.code = some "ETIMEDOUT" then
    ⟨"NASA POWER API request timed out", "API_TIMEOUT", 504, none⟩
  else
    match e.responseStatus with
    | some statusCode =>
      let message :=
        if statusCode = 400 then "Invalid request parameters sent to NASA API"
        else if statusCode = 429 then "NASA API rate limit exceeded"
        else if statusCode = 500 then "NASA POWER API internal server error"
        else if statusCode = 503 then "NASA POWER API service unavailable"
        else "NASA POWER API error (" ++ toString statusCode ++ ")"
      ⟨message, "EXTERNAL_API_ERROR", 502, some statusCode⟩
    | none =>
      if e.code = some "ENOTFOUND" ∨ e.code = some "ECONNREFUSED" then
        ⟨"Unable to connect to NASA POWER API", "NETWORK_ERROR", 502, none⟩
      else
        ⟨"Unexpected error while fetching NASA data", "EXTERNAL_API_ERROR", 502, none⟩

/-- The two paths of `WeatherController.getWeatherData`. -/
inductive Route where
  | historical
  | prediction
  deriving DecidableEq

/-- The date-cutoff branching of `WeatherController.getWeatherData` (also in
`getBulkWeatherData`), over dates encoded as day numbers. The controller
reads `config.weather.nasaDataDelayDays`; when that key is absent the
JavaScript computes `getDate() - undefined = NaN`, `setDate(NaN)` turns the
cutoff into an invalid date, and `requestDate < cutoff` is false for every
request date, so the prediction branch is always taken. -/
def routeRequest (requestDate today : Int) (delayDays : Option Int) : Route :=
  match delayDays with
  | some d => if requestDate < today - d then Route.historical else Route.prediction
  | none => Route.prediction

/-- The `weather` block of `src/config/config.js` as shipped: note that it
carries no `nasaDataDelayDays` entry, although the controller reads one (the
repository's own FIX_SUMMARY.md documents the intended
`nasaDataDelayDays: parseInt(process.env.NASA_DATA_DELAY_DAYS) || 4`). -/
structure WeatherConfig where
  defaultHistoricalYears : Nat
  maxHistoricalYears : Nat
  minHistoricalYears : Nat
  defaultParameters : List String
  maxParametersPerRequest : Nat
  fillValue : ℚ
  nasaDataDelayDays : Option Int
  deriving DecidableEq

/-- `config.weather` with its shipped default values. -/
def configWeather : WeatherConfig :=
  { defaultHistoricalYears := 20
    maxHistoricalYears := 30
    minHistoricalYears := 5
    defaultParameters := ["T2M", "RH2M", "WS10M", "WD10M", "PS", "ALLSKY_SFC_SW_DWN"]
    maxParametersPerRequest := 20
    fillValue := -999
    nasaDataDelayDays := none }

/-- Day-of-year number of a 2025 (non-leap) calendar date, to compare the
concrete dates of the cutoff claim on a common axis. -/
def dayOfYear2025 (month day : Nat) : Int :=
  ((([31, 28, 31, 30, 31, 30, 31, 31, 30, 31, 30, 31].take (month - 1)).sum + day : Nat) : Int)

/-- `"".padStart(2, '0')` on a character list. -/
def padStart2 (l : List Char) : List Char := List.replicate (2 - l.length) '0' ++ l

/-- Split a character list at every dash, as the anchored regex groups of the
date validator do. -/
def splitDash : List Char → List (List Char)
  | [] => [[]]
  | c :: cs =>
    match splitDash cs with
    | [] => [[c]]
    | g :: gs => if c = '-' then [] :: g :: gs else (c :: g) :: gs

/-- The custom date validator of `ValidationService.getWeatherDataSchema`:
match the flexible pattern `YYYY-M-D` (one- or two-digit month and day) and
zero-pad the month and day. A string failing the flexible pattern also fails
the strict `YYYY-MM-DD` fallback pattern (a subset), so it is rejected. The
later calendar/range checks run on the normalized string without changing
it. -/
def normalizeDate (s : String) : Option String :=
  match splitDash s.data with
  | [y, m, d] =>
    if y.length = 4 ∧ y.all Char.isDigit ∧
        1 ≤ m.length ∧ m.length ≤ 2 ∧ m.all Char.isDigit ∧
        1 ≤ d.length ∧ d.length ≤ 2 ∧ d.all Char.isDigit then
      some (String.mk (y ++ '-' :: padStart2 m ++ '-' :: padStart2 d))
    else none
  | _ => none

/-- Whether a settled year request failed. -/
def FetchOutcome.isErr : FetchOutcome → Bool
  | FetchOutcome.err _ => true
  | FetchOutcome.ok _ => false

/-- A one-parameter year dataset with a single hourly entry, for concrete
witnesses. -/
def sampleYearData (key : String) (v : JsVal) : NasaData :=
  ⟨[29, 41, 100], [("T2M", [(key, v)])], [("T2M", "C")]⟩

/-- Scenario A of the spec: three successful years whose hour-00 values are
10.0, 12.0 and the fill sentinel. -/
def sampleThreeYears : List YearItem :=
  [⟨2027, some (sampleYearData "2027061500" (JsVal.num 10))⟩,
   ⟨2028, some (sampleYearData "2028061500" (JsVal.num 12))⟩,
   ⟨2029, some (sampleYearData "2029061500" (JsVal.num (-999)))⟩]

/-- A single successful year whose only hour-00 value is the fill sentinel. -/
def sampleAllFillYear : List YearItem :=
  [⟨2027, some (sampleYearData "2027061500" (JsVal.num (-999)))⟩]

/-- Two year requests of which the second failed: the input for exercising
the partial-failure pipeline. -/
def sampleFetchMixed : List YearFetch :=
  [⟨2024, FetchOutcome.ok (sampleYearData "2024061500" (JsVal.num 10))⟩,
   ⟨2023, FetchOutcome.err "NASA POWER API request timed out"⟩]

/-- Two year requests that both failed. -/
def sampleFetchAllFailed : List YearFetch :=
  [⟨2024, FetchOutcome.err "NASA POWER API request timed out"⟩,
   ⟨2023, FetchOutcome.err "NASA API rate limit exceeded"⟩]

/-- Two year requests of which the first succeeded. -/
def sampleFetchOneOk : List YearFetch :=
  [⟨2024, FetchOutcome.ok (sampleYearData "2024061500" (JsVal.num 7))⟩,
   ⟨2023, FetchOutcome.err "Unable to connect to NASA POWER API"⟩]

/-- The axios rejection produced by an upstream HTTP 400 response. -/
def sampleError400 : JsError :=
  ⟨none, some 400, "Request failed with status code 400"⟩

/-- A series with one valid hourly value and one fill value. -/
def sampleSeriesC8 : List (String × JsVal) :=
  [("2030061500", JsVal.num 11), ("2030061501", JsVal.num (-999))]

/-- A prediction-shaped response carrying `sampleSeriesC8`. -/
def sampleRespC8 : NasaData := ⟨[29, 41, 100], [("T2M", sampleSeriesC8)], [("T2M", "C")]⟩

/-- Metadata of a 3-year, 1-parameter prediction (Scenario A):
`totalDataPoints = 3 * 24 * 1`. -/
def sampleMdC8 : PredictionMetadata := ⟨3, 72, []⟩

/-- A series whose every value is the fill sentinel or non-numeric. -/
def sampleFillSeries : List (String × JsVal) :=
  [("2025100100", JsVal.num (-999)), ("2025100101", JsVal.nonNum)]

/-- A response whose only parameter has no valid values at all. -/
def sampleRespC10 : NasaData := ⟨[29, 41], [("T2M", sampleFillSeries)], []⟩

lemma getProp_map_self {α : Type} (g : String → α) :
    ∀ (l : List String) (k : String), k ∈ l →
      getProp k (l.map (fun p => (p, g p))) = some (g k) := by
  intro l
  induction l with
  | nil => intro k hk; cases hk
  | cons a rest ih =>
    intro k hk
    by_cases hak : a = k
    · subst hak; simp [getProp]
    · have hk' : k ∈ rest := by
        cases hk with
        | head => exact absurd rfl hak
        | tail _ h => exact h
      simpa [getProp, hak] using ih k hk'

lemma getProp_map_inj {α : Type} (f : Nat → String) (g : Nat → α) :
    ∀ (l : List Nat), (∀ i ∈ l, ∀ j ∈ l, f i = f j → i = j) →
      ∀ h ∈ l, getProp (f h) (l.map (fun i => (f i, g i))) = some (g h) := by
  intro l
  induction l with
  | nil => intro _ h hh; cases hh
  | cons a rest ih =>
    intro hinj h hh
    by_cases hfa : f a = f h
    · have : a = h := hinj a (List.mem_cons_self a rest) h hh hfa
      subst this
      simp [getProp]
    · have hh' : h ∈ rest := by
        cases hh with
        | head => exact absurd rfl hfa
        | tail _ hmem => exact hmem
      have hinj' : ∀ i ∈ rest, ∀ j ∈ rest, f i = f j → i = j := fun i hi j hj =>
        hinj i (List.mem_cons_of_mem a hi) j (List.mem_cons_of_mem a hj)
      simpa [getProp, hfa] using ih hinj' h hh'

lemma twoDigit_inj : ∀ i, i < 24 → ∀ j, j < 24 → twoDigit i = twoDigit j → i = j := by
  decide

lemma string_append_left_cancel {a b c : String} (h : a ++ b = a ++ c) : b = c := by
  have hd := congrArg String.data h
  simp only [String.data_append] at hd
  exact String.ext (List.append_cancel_left hd)

lemma formatHourKey_inj (date : String) :
    ∀ i ∈ List.range 24, ∀ j ∈ List.range 24,
      formatHourKey date i = formatHourKey date j → i = j := by
  intro i hi j hj hij
  have hi' := List.mem_range.mp hi
  have hj' := List.mem_range.mp hj
  exact twoDigit_inj i hi' j hj' (string_append_left_cancel hij)

lemma getProp_filterMap_not_mem {β γ : Type} (f : String → β → Option γ) :
    ∀ (l : List (String × β)) (k : String), k ∉ l.map Prod.fst →
      getProp k (l.filterMap (fun p => (f p.1 p.2).map (fun a => (p.1, a)))) = none := by
  intro l
  induction l with
  | nil => intro k _; rfl
  | cons p rest ih =>
    intro k hk
    have hk1 : p.1 ≠ k := by
      intro he; exact hk (by simp [he])
    have hk2 : k ∉ rest.map Prod.fst := fun hm => hk (by simp [hm])
    cases hf : f p.1 p.2 with
    | none => simpa [List.filterMap_cons, hf] using ih k hk2
    | some a => simpa [List.filterMap_cons, hf, getProp, hk1] using ih k hk2

lemma getProp_filterMap {β γ : Type} (f : String → β → Option γ) :
    ∀ (l : List (String × β)), (l.map Prod.fst).Nodup →
      ∀ (k : String) (s : β), getProp k l = some s →
        getProp k (l.filterMap (fun p => (f p.1 p.2).map (fun a => (p.1, a)))) = f k s := by
  intro l
  induction l with
  | nil => intro _ k s hs; cases hs
  | cons p rest ih =>
    obtain ⟨pk, pv⟩ := p
    intro hnodup k s hs
    rw [List.map_cons] at hnodup
    have hnd := List.nodup_cons.mp hnodup
    by_cases hpk : pk = k
    · subst hpk
      have hsv : pv = s := by simpa [getProp] using hs
      subst hsv
      have hknot : pk ∉ rest.map Prod.fst := hnd.1
      rw [List.filterMap_cons]
      cases hf : f pk pv with
      | none =>
        simpa [hf] using getProp_filterMap_not_mem f rest pk hknot
      | some a => simp [hf, getProp]
    · have hs' : getProp k rest = some s := by
        simpa [getProp, hpk] using hs
      rw [List.filterMap_cons]
      cases hf : f pk pv with
      | none => simpa [hf] using ih hnd.2 k s hs'
      | some a => simpa [hf, getProp, hpk] using ih hnd.2 k s hs'

lemma joinSep_mem_decompose (sep : String) :
    ∀ (l : List String) (e : String), e ∈ l →
      ∃ pre post, (joinSep sep l).data = pre ++ e.data ++ post := by
  intro l
  induction l with
  | nil => intro e he; cases he
  | cons x rest ih =>
    intro e he
    cases rest with
    | nil =>
      have hex : e = x := by simpa using he
      subst hex
      exact ⟨[], [], by simp [joinSep]⟩
    | cons y ys =>
      rcases List.mem_cons.mp he with hex | hetail
      · subst hex
        refine ⟨[], (sep ++ joinSep sep (y :: ys)).data, ?_⟩
        simp [joinSep, String.data_append]
      · obtain ⟨pre, post, hpp⟩ := ih e hetail
        refine ⟨(x ++ sep).data ++ pre, post, ?_⟩
        simp [joinSep, String.data_append, hpp]

lemma fetchSuccesses_all_some :
    ∀ (results : List YearFetch),
      (fetchSuccesses results).filter (fun it => it.data.isNone) = [] := by
  intro results
  induction results with
  | nil => rfl
  | cons r rest ih =>
    cases hr : r.outcome with
    | ok d => simpa [fetchSuccesses, List.filterMap_cons, hr] using ih
    | err m => simpa [fetchSuccesses, List.filterMap_cons, hr] using ih

lemma fetchSuccesses_eq_nil_of_all_err (results : List YearFetch)
    (hall : ∀ r ∈ results, ∃ m, r.outcome = FetchOutcome.err m) :
    fetchSuccesses results = [] := by
  refine List.filterMap_eq_nil_iff.mpr ?_
  intro r hr
  obtain ⟨m, hm⟩ := hall r hr
  simp [hm]

lemma mem_fetchErrors_of_err (results : List YearFetch) (r : YearFetch) (m : String)
    (hr : r ∈ results) (hm : r.outcome = FetchOutcome.err m) :
    ("Year " ++ toString r.year ++ ": " ++ m) ∈ fetchErrors results := by
  refine List.mem_filterMap.mpr ⟨r, hr, ?_⟩
  simp [hm]

lemma makeRequestGo_all_thrown (e : Nat → JsError) (rd : Nat)
    (attempts : Nat → AttemptOutcome) (hatt : ∀ i, attempts i = AttemptOutcome.thrown (e i)) :
    ∀ (l : List Nat) (le : Option JsError) (ds : List Nat) (made : Nat) (last : Nat),
      l.getLast? = some last →
      makeRequestGo attempts rd l le ds made =
        ⟨Except.error (some (e last)), ds ++ l.dropLast.map (fun i => rd * i), made + l.length⟩ := by
  intro l
  induction l with
  | nil => intro _ _ _ _ hlast; cases hlast
  | cons i rest ih =>
    intro le ds made last hlast
    cases rest with
    | nil =>
      have hil : i = last := by simpa using hlast
      subst hil
      simp [makeRequestGo, hatt i]
    | cons j js =>
      have hlast' : (j :: js).getLast? = some last := by
        simpa [List.getLast?_cons_cons] using hlast
      rw [makeRequestGo, hatt i]
      dsimp only
      rw [ih (some (e i)) _ (made + 1) last hlast']
      simp [RequestTrace.mk.injEq, List.append_assoc]
      omega

lemma splitDash_ne_nil : ∀ l : List Char, splitDash l ≠ [] := by
  intro l
  cases l with
  | nil => simp [splitDash]
  | cons c cs =>
    cases h : splitDash cs with
    | nil => simp [splitDash, h]
    | cons g gs =>
      by_cases hc : c = '-' <;> simp [splitDash, h, hc]

lemma splitDash_no_dash : ∀ l : List Char, (∀ c ∈ l, c ≠ '-') → splitDash l = [l] := by
  intro l
  induction l with
  | nil => intro _; rfl
  | cons c cs ih =>
    intro h
    have hc : c ≠ '-' := h c (List.mem_cons_self c cs)
    have ih' := ih (fun x hx => h x (List.mem_cons_of_mem c hx))
    simp [splitDash, ih', hc]

lemma splitDash_append_dash : ∀ (a r : List Char), (∀ c ∈ a, c ≠ '-') →
    splitDash (a ++ '-' :: r) = a :: splitDash r := by
  intro a
  induction a with
  | nil =>
    intro r _
    cases h : splitDash r with
    | nil => exact absurd h (splitDash_ne_nil r)
    | cons g gs => simp [splitDash, h]
  | cons c a' ih =>
    intro r h
    have hc : c ≠ '-' := h c (List.mem_cons_self c a')
    have ih' := ih r (fun x hx => h x (List.mem_cons_of_mem c hx))
    rw [List.cons_append]
    rw [show splitDash (c :: (a' ++ '-' :: r)) = match splitDash (a' ++ '-' :: r) with
        | [] => [[c]]
        | g :: gs => if c = '-' then [] :: g :: gs else (c :: g) :: gs from rfl]
    rw [ih']
    simp [hc]

lemma no_dash_of_all_digit (l : List Char) (h : l.all Char.isDigit = true) :
    ∀ c ∈ l, c ≠ '-' := by
  intro c hc he
  have hd := List.all_eq_true.mp h c hc
  subst he
  exact absurd hd (by decide)

lemma padStart2_length (l : List Char) (h1 : 1 ≤ l.length) :
    (padStart2 l).length = max 2 l.length := by
  simp [padStart2]
  omega

lemma padStart2_eq_self (l : List Char) (h : l.length = 2) : padStart2 l = l := by
  simp [padStart2, h]

lemma padStart2_all_digit (l : List Char) (h : l.all Char.isDigit = true) :
    (padStart2 l).all Char.isDigit = true := by
  rw [padStart2, List.all_append]
  refine (Bool.and_eq_true _ _).mpr ⟨?_, h⟩
  refine List.all_eq_true.mpr ?_
  intro c hc
  have : c = '0' := (List.eq_of_mem_replicate hc)
  subst this
  decide

/-- C1: for every parameter in the request and every hour 0–23, when at least
one successful year-dataset yields a numeric non-fill value for that hour,
the value `calculatePrediction` emits under the target hour key is the
2-decimal-rounded arithmetic mean of exactly the collected non-fill numeric
values (`collectHourValues`, which drops fill and non-numeric values). -/
theorem c1_hourly_mean_excludes_fill (arr : List YearItem) (targetDate : String)
    (params : List String) (param : String) (h : Nat)
    (hp : param ∈ params) (hh : h < 24)
    (hne : collectHourValues arr param h ≠ []) :
    ∃ series, getProp param (calculatePrediction arr targetDate params).1.parameter = some series ∧
      getProp (formatHourKey targetDate h) series =
        some (JsVal.num (round2 ((collectHourValues arr param h).sum /
          ((collectHourValues arr param h).length : ℚ)))) := by
  refine ⟨hourlyAverages arr targetDate param, ?_, ?_⟩
  · have hpp : (calculatePrediction arr targetDate params).1.parameter
        = params.map (fun p => (p, hourlyAverages arr targetDate p)) := rfl
    rw [hpp]
    exact getProp_map_self _ params param hp
  · rw [hourlyAverages]
    rw [getProp_map_inj (formatHourKey targetDate)
      (fun i => JsVal.num (predictedHourValue arr param i)) (List.range 24)
      (formatHourKey_inj targetDate) h (List.mem_range.mpr hh)]
    have hemp : (collectHourValues arr param h).isEmpty = false := by
      cases hcv : collectHourValues arr param h with
      | nil => exact absurd hcv hne
      | cons a l => rfl
    simp [predictedHourValue, hemp]

/-- Witness for C1: Scenario A data (hour-00 values 10.0, 12.0 and a fill)
has a non-empty collected set, and the emitted value is the rounded mean of
the two non-fill values. -/
theorem c1_hourly_mean_excludes_fill_witness :
    ∃ series, getProp "T2M" (calculatePrediction sampleThreeYears "2030-06-15" ["T2M"]).1.parameter
        = some series ∧
      getProp (formatHourKey "2030-06-15" 0) series =
        some (JsVal.num (round2 ((collectHourValues sampleThreeYears "T2M" 0).sum /
          ((collectHourValues sampleThreeYears "T2M" 0).length : ℚ)))) :=
  c1_hourly_mean_excludes_fill sampleThreeYears "2030-06-15" ["T2M"] "T2M" 0
    (by decide) (by decide) (by decide)

/-- C2: for every parameter in the request and every hour 0–23, when no year
yields a numeric non-fill value for that hour (including when no successful
dataset carries the parameter at all), `calculatePrediction` emits exactly
the fill sentinel under the target hour key — the key is present, not
absent, and its value is the sentinel rather than zero. -/
theorem c2_full_miss_emits_fill (arr : List YearItem) (targetDate : String)
    (params : List String) (param : String) (h : Nat)
    (hp : param ∈ params) (hh : h < 24)
    (hempty : collectHourValues arr param h = []) :
    ∃ series, getProp param (calculatePrediction arr targetDate params).1.parameter = some series ∧
      getProp (formatHourKey targetDate h) series = some (JsVal.num fillValue) := by
  refine ⟨hourlyAverages arr targetDate param, ?_, ?_⟩
  · have hpp : (calculatePrediction arr targetDate params).1.parameter
        = params.map (fun p => (p, hourlyAverages arr targetDate p)) := rfl
    rw [hpp]
    exact getProp_map_self _ params param hp
  · rw [hourlyAverages]
    rw [getProp_map_inj (formatHourKey targetDate)
      (fun i => JsVal.num (predictedHourValue arr param i)) (List.range 24)
      (formatHourKey_inj targetDate) h (List.mem_range.mpr hh)]
    simp [predictedHourValue, hempty]

/-- Witness for C2: a year list whose only hour-00 value is the fill sentinel
collects nothing, and the emitted hour-00 value is the fill sentinel. -/
theorem c2_full_miss_emits_fill_witness :
    ∃ series, getProp "T2M" (calculatePrediction sampleAllFillYear "2030-06-15" ["T2M"]).1.parameter
        = some series ∧
      getProp (formatHourKey "2030-06-15" 0) series = some (JsVal.num fillValue) :=
  c2_full_miss_emits_fill sampleAllFillYear "2030-06-15" ["T2M"] "T2M" 0
    (by decide) (by decide) (by decide)

/-- C3 (code evaluation): the aggregation does run on the successes of a
partially failed fetch, but the prediction metadata's `missingYears` is
always empty, because `fetchHistoricalDataForPrediction` drops failed years
before calling `calculatePrediction` — its `!item.data` filter never sees
them. Concretely: with years 2024 (success) and 2023 (failure), the pipeline
aggregates the single success and reports `missingYears = []`, not `[2023]`.
The general conjunct shows every fetcher output aggregates to an empty
`missingYears` list. -/
theorem c3_missing_years_always_empty :
    (processFetchResults sampleFetchMixed =
      Except.ok [⟨2024, some (sampleYearData "2024061500" (JsVal.num 10))⟩]) ∧
    ((calculatePrediction [⟨2024, some (sampleYearData "2024061500" (JsVal.num 10))⟩]
        "2025-06-15" ["T2M"]).2.yearsUsed = 1) ∧
    (∀ (results : List YearFetch) (targetDate : String) (params : List String)
        (arr : List YearItem), processFetchResults results = Except.ok arr →
      (calculatePrediction arr targetDate params).2.missingYears = []) := by
  refine ⟨rfl, rfl, ?_⟩
  intro results targetDate params arr harr
  simp only [processFetchResults] at harr
  by_cases hie : (fetchSuccesses results).isEmpty
  · rw [if_pos hie] at harr; cases harr
  · rw [if_neg hie] at harr
    have harr' : fetchSuccesses results = arr := Except.ok.inj harr
    subst harr'
    have hmy : (calculatePrediction (fetchSuccesses results) targetDate params).2.missingYears
        = ((fetchSuccesses results).filter (fun it => it.data.isNone)).map YearItem.year := rfl
    rw [hmy, fetchSuccesses_all_some]
    rfl

/-- Witness for C3's general conjunct at the concrete partially-failed run. -/
theorem c3_missing_years_always_empty_witness :
    (calculatePrediction [⟨2024, some (sampleYearData "2024061500" (JsVal.num 10))⟩]
      "2025-06-15" ["T2M"]).2.missingYears = [] :=
  c3_missing_years_always_empty.2.2 sampleFetchMixed "2025-06-15" ["T2M"]
    [⟨2024, some (sampleYearData "2024061500" (JsVal.num 10))⟩] rfl

/-- C6: when every year request fails, the fetcher throws a single aggregate
error whose message embeds each year's formatted failure reason, and returns
no (partial) success list; when at least one year succeeds, no error is
thrown and a non-empty success list is returned. -/
theorem c6_all_failed_aggregate (results : List YearFetch) :
    ((∀ r ∈ results, r.outcome.isErr = true) →
      processFetchResults results = Except.error (aggregateErrorMessage results) ∧
      ∀ r ∈ results, ∀ m, r.outcome = FetchOutcome.err m →
        ∃ pre post, (aggregateErrorMessage results).data =
          pre ++ ("Year " ++ toString r.year ++ ": " ++ m).data ++ post) ∧
    ((∃ r ∈ results, r.outcome.isErr = false) →
      ∃ arr, processFetchResults results = Except.ok arr ∧ arr ≠ []) := by
  constructor
  · intro hall
    have hall' : ∀ r ∈ results, ∃ m, r.outcome = FetchOutcome.err m := by
      intro r hr
      cases hro : r.outcome with
      | ok d =>
        have := hall r hr
        rw [hro] at this
        cases this
      | err m => exact ⟨m, rfl⟩
    have hnil := fetchSuccesses_eq_nil_of_all_err results hall'
    constructor
    · simp [processFetchResults, hnil]
    · intro r hr m hm
      have hmem := mem_fetchErrors_of_err results r m hr hm
      obtain ⟨pre, post, hpp⟩ := joinSep_mem_decompose ", " (fetchErrors results) _ hmem
      refine ⟨("No historical data available for prediction. Errors: " : String).data ++ pre,
        post, ?_⟩
      rw [aggregateErrorMessage, String.data_append, hpp]
      simp [List.append_assoc]
  · intro hsome
    obtain ⟨r, hr, hok⟩ := hsome
    obtain ⟨d, hd⟩ : ∃ d, r.outcome = FetchOutcome.ok d := by
      cases hro : r.outcome with
      | ok d => exact ⟨d, rfl⟩
      | err m =>
        rw [hro] at hok
        cases hok
    have hmem : (⟨r.year, some d⟩ : YearItem) ∈ fetchSuccesses results := by
      refine List.mem_filterMap.mpr ⟨r, hr, ?_⟩
      simp [hd]
    have hne : fetchSuccesses results ≠ [] := fun he => by
      rw [he] at hmem
      cases hmem
    have hie : (fetchSuccesses results).isEmpty = false := by
      cases hfs : fetchSuccesses results with
      | nil => exact absurd hfs hne
      | cons a l => rfl
    exact ⟨fetchSuccesses results, by simp [processFetchResults, hie], hne⟩

/-- Witness for C6: the all-failed pair throws the aggregate error, and a
pair with one success returns a non-empty success list without error. -/
theorem c6_all_failed_aggregate_witness :
    processFetchResults sampleFetchAllFailed
      = Except.error (aggregateErrorMessage sampleFetchAllFailed) ∧
    ∃ arr, processFetchResults sampleFetchOneOk = Except.ok arr ∧ arr ≠ [] :=
  ⟨((c6_all_failed_aggregate sampleFetchAllFailed).1 (by decide)).1,
   (c6_all_failed_aggregate sampleFetchOneOk).2 (by decide)⟩

/-- C4 (code evaluation): with the shipped configuration — whose `weather`
block has no `nasaDataDelayDays` key — the cutoff date is invalid (NaN) and
every request, including 2025-09-30 under today = 2025-10-05, routes to the
prediction path; the claimed behaviour (2025-09-30 → historical;
2025-10-01, 2025-10-05, 2025-10-15 → prediction) only holds once the
documented `nasaDataDelayDays = 4` default actually exists. -/
theorem c4_cutoff_routing_behavior :
    (∀ requestDate today : Int,
      routeRequest requestDate today configWeather.nasaDataDelayDays = Route.prediction) ∧
    routeRequest (dayOfYear2025 9 30) (dayOfYear2025 10 5) configWeather.nasaDataDelayDays
      = Route.prediction ∧
    routeRequest (dayOfYear2025 9 30) (dayOfYear2025 10 5) (some 4) = Route.historical ∧
    routeRequest (dayOfYear2025 10 1) (dayOfYear2025 10 5) (some 4) = Route.prediction ∧
    routeRequest (dayOfYear2025 10 5) (dayOfYear2025 10 5) (some 4) = Route.prediction ∧
    routeRequest (dayOfYear2025 10 15) (dayOfYear2025 10 5) (some 4) = Route.prediction := by
  refine ⟨fun r t => rfl, rfl, by decide, by decide, by decide, by decide⟩

/-- Counterexample to C5: an upstream that rejects every attempt with an
HTTP 400 error is retried anyway — `makeRequest` issues all 3 attempts (not
1), sleeping 1000 ms and then 2000 ms in between, before surfacing the 400
error; nothing in the retry loop inspects the status code. -/
theorem c5_fourxx_retried_counterexample :
    (makeRequest (fun _ => AttemptOutcome.thrown sampleError400) 3 1000).attemptsMade = 3 ∧
    (makeRequest (fun _ => AttemptOutcome.thrown sampleError400) 3 1000).attemptsMade ≠ 1 ∧
    (makeRequest (fun _ => AttemptOutcome.thrown sampleError400) 3 1000).delays = [1000, 2000] ∧
    (makeRequest (fun _ => AttemptOutcome.thrown sampleError400) 3 1000).result
      = Except.error (some sampleError400) := by
  decide

/-- C5 amended: every rejected attempt — 4xx responses included — is retried
up to the configured attempt count (default 3) with delay
`retryDelay * attemptNumber` after each non-final failure; on exhaustion the
last error is thrown, and `handleApiError` normalizes an upstream 400 into
the bad-request message with code `EXTERNAL_API_ERROR` and status 502. -/
theorem c5_retry_exhaustion_amended (e : Nat → JsError) (n rd : Nat) (hn : 1 ≤ n) :
    makeRequest (fun i => AttemptOutcome.thrown (e i)) n rd =
      ⟨Except.error (some (e n)), (List.range' 1 (n - 1)).map (fun i => rd * i), n⟩ ∧
    (∀ msg : String, handleApiError ⟨none, some 400, msg⟩ =
      ⟨"Invalid request parameters sent to NASA API", "EXTERNAL_API_ERROR", 502, some 400⟩) := by
  constructor
  · obtain ⟨m, rfl⟩ : ∃ m, n = m + 1 := ⟨n - 1, by omega⟩
    have hsplit : List.range' 1 (m + 1) = List.range' 1 m ++ [m + 1] := by
      simpa [Nat.add_comm] using @List.range'_concat 1 1 m
    have hlast : (List.range' 1 (m + 1)).getLast? = some (m + 1) := by
      rw [hsplit]
      exact List.getLast?_concat _
    have hgo := makeRequestGo_all_thrown e rd (fun i => AttemptOutcome.thrown (e i))
      (fun i => rfl) (List.range' 1 (m + 1)) none [] 0 (m + 1) hlast
    rw [makeRequest, hgo]
    have hdrop : (List.range' 1 (m + 1)).dropLast = List.range' 1 m := by
      rw [hsplit]
      exact List.dropLast_concat
    simp [hdrop]
  · intro msg
    rfl

/-- Witness for C5's amended statement at 3 attempts, all rejected with the
concrete 400 error, and base delay 1000. -/
theorem c5_retry_exhaustion_amended_witness :
    makeRequest (fun i => AttemptOutcome.thrown ((fun _ => sampleError400) i)) 3 1000 =
      ⟨Except.error (some sampleError400), [1000, 2000], 3⟩ ∧
    handleApiError ⟨none, some 400, "Request failed with status code 400"⟩ =
      ⟨"Invalid request parameters sent to NASA API", "EXTERNAL_API_ERROR", 502, some 400⟩ := by
  have h := c5_retry_exhaustion_amended (fun _ => sampleError400) 3 1000 (by decide)
  refine ⟨?_, h.2 "Request failed with status code 400"⟩
  rw [h.1]
  decide

/-- C7: at the call site (`totalDataPoints = yearsUsed * 24 * parameterCount`
with a non-empty parameter list) the reliability label follows exactly the
thresholds 15/10/5, is non-decreasing in `yearsUsed`, and below 15 years the
label ignores `totalDataPoints` entirely. -/
theorem c7_reliability_thresholds_monotone (p : Nat) (hp : 1 ≤ p) :
    (∀ y : Nat, calculateReliability y (y * 24 * p) =
      if y ≥ 15 then Reliability.high
      else if y ≥ 10 then Reliability.medium
      else if y ≥ 5 then Reliability.low
      else Reliability.very_low) ∧
    (∀ y₁ y₂ : Nat, y₁ ≤ y₂ →
      reliabilityRank (calculateReliability y₁ (y₁ * 24 * p)) ≤
        reliabilityRank (calculateReliability y₂ (y₂ * 24 * p))) ∧
    (∀ y t₁ t₂ : Nat, y < 15 → calculateReliability y t₁ = calculateReliability y t₂) := by
  have hmain : ∀ y : Nat, calculateReliability y (y * 24 * p) =
      if y ≥ 15 then Reliability.high
      else if y ≥ 10 then Reliability.medium
      else if y ≥ 5 then Reliability.low
      else Reliability.very_low := by
    intro y
    unfold calculateReliability
    by_cases h15 : y ≥ 15
    · have hpos : 0 < y * 24 * p := by
        have h1 : 0 < y := by omega
        have h2 : 0 < y * 24 := by omega
        exact Nat.mul_pos h2 hp
      rw [if_pos ⟨h15, hpos⟩, if_pos h15]
    · rw [if_neg (fun hc => h15 hc.1), if_neg h15]
  refine ⟨hmain, ?_, ?_⟩
  · intro y₁ y₂ hle
    rw [hmain y₁, hmain y₂]
    split_ifs <;> simp [reliabilityRank] <;> omega
  · intro y t₁ t₂ hy
    have h15 : ¬ y ≥ 15 := by omega
    have hc₁ : ¬ (y ≥ 15 ∧ t₁ > 0) := fun hc => h15 hc.1
    have hc₂ : ¬ (y ≥ 15 ∧ t₂ > 0) := fun hc => h15 hc.1
    unfold calculateReliability
    rw [if_neg hc₁, if_neg hc₂]

/-- Witness for C7: with one parameter, 15 years gives the `high` label. -/
theorem c7_reliability_thresholds_monotone_witness :
    calculateReliability 15 (15 * 24 * 1) = Reliability.high := by
  have h := (c7_reliability_thresholds_monotone 1 (by decide)).1 15
  simpa using h

/-- C8: for a prediction-type result, every parameter with at least one valid
(non-fill numeric) hourly value gets a confidence label computed as
`calculateConfidence(validCount, metadata.totalDataPoints)`; the metadata
denominator produced by `calculatePrediction` is always the dataset-level
`yearsUsed * 24 * parameterCount` (never a per-parameter count); and for a
positive denominator the label follows the 0.9/0.7/0.5 ratio thresholds. -/
theorem c8_confidence_dataset_denominator (resp : NasaData) (requestDate : String)
    (md : PredictionMetadata) (name : String) (series : List (String × JsVal))
    (hnodup : (resp.parameter.map Prod.fst).Nodup)
    (hlookup : getProp name resp.parameter = some series)
    (hvv : validValues series ≠ []) :
    (∃ agg, getProp name
        (processWeatherData resp requestDate DataType.prediction (some md)).dailyAggregates
        = some agg ∧
      agg.confidence = some (calculateConfidence (validValues series).length md.totalDataPoints)) ∧
    (∀ (arr : List YearItem) (targetDate : String) (params : List String),
      (calculatePrediction arr targetDate params).2.totalDataPoints =
        (calculatePrediction arr targetDate params).2.yearsUsed * 24 * params.length) ∧
    (∀ available total : Nat, 0 < total →
      calculateConfidence available total =
        if ((available : ℚ) / (total : ℚ)) ≥ 9/10 then Confidence.high
        else if ((available : ℚ) / (total : ℚ)) ≥ 7/10 then Confidence.medium
        else if ((available : ℚ) / (total : ℚ)) ≥ 1/2 then Confidence.low
        else Confidence.very_low) := by
  refine ⟨?_, fun arr targetDate params => rfl, ?_⟩
  · have hfm := getProp_filterMap
      (fun nm s => processParam DataType.prediction (some md) resp.parametersInfo nm s)
      resp.parameter hnodup name series hlookup
    have hda : (processWeatherData resp requestDate DataType.prediction (some md)).dailyAggregates
        = resp.parameter.filterMap (fun p =>
            (processParam DataType.prediction (some md) resp.parametersInfo p.1 p.2).map
              (fun a => (p.1, a))) := rfl
    rw [hda, hfm]
    show ∃ agg, processParam DataType.prediction (some md) resp.parametersInfo name series
        = some agg ∧
      agg.confidence = some (calculateConfidence (validValues series).length md.totalDataPoints)
    cases hv : validValues series with
    | nil => exact absurd hv hvv
    | cons v vs =>
      unfold processParam
      rw [hv]
      exact ⟨_, rfl, rfl⟩
  · intro available total ht
    unfold calculateConfidence
    rw [if_neg (by omega : ¬ total = 0)]

/-- Witness for C8: one valid value out of a 3-year, 1-parameter prediction
(denominator 72) receives the label for the ratio 1/72. -/
theorem c8_confidence_dataset_denominator_witness :
    ∃ agg, getProp "T2M"
        (processWeatherData sampleRespC8 "2030-06-15" DataType.prediction
          (some sampleMdC8)).dailyAggregates = some agg ∧
      agg.confidence = some (calculateConfidence (validValues sampleSeriesC8).length
        sampleMdC8.totalDataPoints) :=
  (c8_confidence_dataset_denominator sampleRespC8 "2030-06-15" sampleMdC8 "T2M" sampleSeriesC8
    (by decide) (by decide) (by decide)).1

/-- C9: the date validator normalizes `2025-1-1` to `2025-01-01` and
`2025-10-3` to `2025-10-03`, leaves `2025-01-01` unchanged, and is idempotent:
every string the validator accepts normalizes to a string that normalizes to
itself. The normalized form is what the controller hands downstream and
echoes in the response's `date` field. -/
theorem c9_date_normalization :
    normalizeDate "2025-1-1" = some "2025-01-01" ∧
    normalizeDate "2025-10-3" = some "2025-10-03" ∧
    normalizeDate "2025-01-01" = some "2025-01-01" ∧
    ∀ s t : String, normalizeDate s = some t → normalizeDate t = some t := by
  refine ⟨by decide, by decide, by decide, ?_⟩
  intro s t hst
  unfold normalizeDate at hst
  split at hst
  case h_1 x y m d heq =>
    split at hst
    case isTrue hc =>
      obtain ⟨h4, hyd, hm1, hm2, hmd, hd1, hd2, hdd⟩ := hc
      have ht : t = String.mk (y ++ '-' :: padStart2 m ++ '-' :: padStart2 d) :=
        (Option.some.inj hst).symm
      subst ht
      have hydig : ∀ c ∈ y, c ≠ '-' := no_dash_of_all_digit y hyd
      have hmdig : ∀ c ∈ padStart2 m, c ≠ '-' :=
        no_dash_of_all_digit _ (padStart2_all_digit m hmd)
      have hddig : ∀ c ∈ padStart2 d, c ≠ '-' :=
        no_dash_of_all_digit _ (padStart2_all_digit d hdd)
      have hsp : splitDash (y ++ '-' :: padStart2 m ++ '-' :: padStart2 d)
          = [y, padStart2 m, padStart2 d] := by
        rw [List.append_assoc, List.cons_append]
        rw [splitDash_append_dash y _ hydig]
        rw [splitDash_append_dash (padStart2 m) _ hmdig]
        rw [splitDash_no_dash (padStart2 d) hddig]
      have hml : (padStart2 m).length = 2 := by
        rw [padStart2_length m hm1]
        omega
      have hdl : (padStart2 d).length = 2 := by
        rw [padStart2_length d hd1]
        omega
      unfold normalizeDate
      rw [show (String.mk (y ++ '-' :: padStart2 m ++ '-' :: padStart2 d)).data
          = y ++ '-' :: padStart2 m ++ '-' :: padStart2 d from rfl]
      rw [hsp]
      dsimp only
      rw [if_pos ⟨h4, hyd, by omega, by omega, padStart2_all_digit m hmd,
        by omega, by omega, padStart2_all_digit d hdd⟩]
      rw [padStart2_eq_self _ hml, padStart2_eq_self _ hdl]
    case isFalse => cases hst
  case h_2 => cases hst

/-- Witness for C9's idempotence conjunct: the normalized form of
`2025-1-1` normalizes to itself. -/
theorem c9_date_normalization_witness :
    normalizeDate "2025-01-01" = some "2025-01-01" :=
  c9_date_normalization.2.2.2 "2025-1-1" "2025-01-01" c9_date_normalization.1

/-- C10: a parameter whose series holds no valid value (everything fill or
non-numeric) is omitted from `dailyAggregates` — no entry at all, rather
than one with defaulted statistics — while `hourlyData` still carries the
parameter's full series; hence the two key sets may differ. -/
theorem c10_empty_param_omitted (resp : NasaData) (requestDate : String)
    (dataType : DataType) (md : Option PredictionMetadata) (name : String)
    (series : List (String × JsVal))
    (hnodup : (resp.parameter.map Prod.fst).Nodup)
    (hlookup : getProp name resp.parameter = some series)
    (hempty : validValues series = []) :
    getProp name (processWeatherData resp requestDate dataType md).dailyAggregates = none ∧
    getProp name (processWeatherData resp requestDate dataType md).hourlyData = some series := by
  constructor
  · have hfm := getProp_filterMap
      (fun nm s => processParam dataType md resp.parametersInfo nm s)
      resp.parameter hnodup name series hlookup
    have hda : (processWeatherData resp requestDate dataType md).dailyAggregates
        = resp.parameter.filterMap (fun p =>
            (processParam dataType md resp.parametersInfo p.1 p.2).map
              (fun a => (p.1, a))) := rfl
    rw [hda, hfm]
    show processParam dataType md resp.parametersInfo name series = none
    unfold processParam
    rw [hempty]
  · exact hlookup

/-- Witness for C10: an all-fill/non-numeric series is dropped from the
aggregates while remaining in the hourly data. -/
theorem c10_empty_param_omitted_witness :
    getProp "T2M" (processWeatherData sampleRespC10 "2025-10-01"
      DataType.historical none).dailyAggregates = none ∧
    getProp "T2M" (processWeatherData sampleRespC10 "2025-10-01"
      DataType.historical none).hourlyData = some sampleFillSeries :=
  c10_empty_param_omitted sampleRespC10 "2025-10-01" DataType.historical none "T2M"
    sampleFillSeries (by decide) (by decide) (by decide)
